import Mathlib

/-!
Verification of the SmartFlow OA API adapter and auth session store.

The repository has two versions of the typed fetch wrapper (src/lib/api.ts
and a second client version); the functions embedded here are shared or are
named after the version the claim cites.  Effectful TypeScript is embedded
as explicit state passing: browser-visible state (local storage keys and
location) is a record threaded through each call, a fetch response is a
record holding the HTTP status, status text, body text and the decoded JSON
value, and a throwing async function becomes a function into Except paired
with the updated browser state.
-/

/-- A thrown JavaScript Error, reduced to its message. -/
structure JsError where
  message : String
deriving DecidableEq

/-- Browser-visible state touched by the adapter: the two persisted local
storage keys and the current location pathname.  Assigning
window.location.href navigates, so it is modelled as updating pathname. -/
structure BrowserState where
  token : Option String
  userId : Option String
  pathname : String
deriving DecidableEq

/-- A fetch response: HTTP status line data, the raw body text, and the JSON
value the body decodes to (the code casts res.json() to the expected type). -/
structure FetchResponse (T : Type) where
  status : Nat
  statusText : String
  bodyText : String
  json : T

/-- Response.ok per the Fetch standard: status in the range 200..299. -/
def FetchResponse.ok {T : Type} (r : FetchResponse T) : Bool :=
  200 ≤ r.status && r.status < 300

/-- The generic backend envelope interface ResultWrapper with fields
code, msg, data. -/
structure ResultWrapper (T : Type) where
  code : Int
  msg : String
  data : T

/-- The 401/403 branch of requestJson: remove the token and userId keys,
then assign window.location.href to /login unless pathname is already
/login. -/
def clearSessionAndRedirect (st : BrowserState) : BrowserState :=
  let st1 : BrowserState := { st with token := none, userId := none }
  if st1.pathname = "/login" then st1 else { st1 with pathname := "/login" }

/-- The error message requestJson throws for a non-ok response:
the Chinese prefix, the status and status text, and when the body text is
non-empty a separator followed by its first 200 characters. -/
def httpErrorMessage (status : Nat) (statusText bodyText : String) : String :=
  "请求失败: " ++ toString status ++ " " ++ statusText ++
    (if bodyText = "" then "" else " - " ++ bodyText.take 200)

/-- requestJson, shared by both API client versions: on a non-ok response it
first runs the 401/403 session cleanup when the status is 401 or 403, then
throws an Error built from the status line and truncated body; on an ok
response it resolves with the decoded JSON value. -/
def requestJson (T : Type) (res : FetchResponse T) (st : BrowserState) :
    Except JsError T × BrowserState :=
  if res.ok then
    (Except.ok res.json, st)
  else
    let st1 := if res.status = 401 ∨ res.status = 403 then clearSessionAndRedirect st else st
    (Except.error ⟨httpErrorMessage res.status res.statusText res.bodyText⟩, st1)

/-- requestResult, shared by both API client versions: unwrap the
ResultWrapper envelope delivered by requestJson; codes 0 and 1 both count as
success and resolve with the data field; any other code throws an Error
whose message is the envelope msg, or the fallback Chinese message when msg
is falsy (empty). -/
def requestResult (T : Type) (res : FetchResponse (ResultWrapper T)) (st : BrowserState) :
    Except JsError T × BrowserState :=
  match requestJson (ResultWrapper T) res st with
  | (Except.error e, st1) => (Except.error e, st1)
  | (Except.ok result, st1) =>
    if result.code ≠ 0 ∧ result.code ≠ 1 then
      (Except.error ⟨if result.msg = "" then "接口返回错误" else result.msg⟩, st1)
    else
      (Except.ok result.data, st1)

/-- apiLogout: POST /api/logout through requestResult, with a finally block
that removes the token and userId keys whether the call resolved or threw;
a thrown error still propagates after the cleanup. -/
def apiLogout (res : FetchResponse (ResultWrapper String)) (st : BrowserState) :
    Except JsError Unit × BrowserState :=
  match requestResult String res st with
  | (Except.ok _, st1) => (Except.ok (), { st1 with token := none, userId := none })
  | (Except.error e, st1) => (Except.error e, { st1 with token := none, userId := none })

/-- The UI-facing User type from mockData (role and status hold the string
literals of their TypeScript union types). -/
structure User where
  id : String
  name : String
  email : String
  avatar : String
  department : String
  role : String
  phone : String
  status : String
  createdAt : String
deriving DecidableEq

/-- State owned by the AuthProvider session store: the browser state, the
React token state, and whether the query cache has been cleared. -/
structure StoreState where
  browser : BrowserState
  reactToken : Option String
  cacheCleared : Bool
deriving DecidableEq

/-- The session store logout: await apiLogout inside a try whose catch only
logs (the error is swallowed), then a finally block removes the token and
userId keys, sets the React token state to null and clears the query cache.
It returns a state, never an error. -/
def logout (res : FetchResponse (ResultWrapper String)) (s : StoreState) : StoreState :=
  let b1 := (apiLogout res s.browser).2
  { browser := { b1 with token := none, userId := none },
    reactToken := none,
    cacheCleared := true }

/-- hasPermission from the AuthProvider: with no current user it returns
false; an admin role returns true; and the fallthrough for every other role
is the stubbed-out blanket allow, returning true. -/
def hasPermission (user : Option User) (permission : String) : Bool :=
  match user with
  | none => false
  | some u =>
    if u.role = "admin" then true
    else true

/-- JavaScript String.prototype.split on a character class, embedded over
the character list: each delimiter occurrence ends the current piece, and
empty pieces are kept, so the empty string splits to a singleton empty
piece. -/
def jsSplitChars (p : Char → Bool) : List Char → List Char → List String
  | [], acc => [String.mk acc.reverse]
  | c :: cs, acc =>
    if p c then String.mk acc.reverse :: jsSplitChars p cs []
    else jsSplitChars p cs (c :: acc)

/-- JavaScript s.split on a character class, over a whole string. -/
def jsSplit (p : Char → Bool) (s : String) : List String :=
  jsSplitChars p s.data []

/-- JavaScript String.prototype.trim: strip leading and trailing
whitespace. -/
def jsTrim (s : String) : String :=
  String.mk (((s.data.dropWhile Char.isWhitespace).reverse.dropWhile
    Char.isWhitespace).reverse)

/-- The backend MeetingRoom DTO. -/
structure BackendMeetingRoom where
  id : Int
  name : String
  capacity : Int
  equipment : String
  location : String
  description : Option String
deriving DecidableEq

/-- The UI-facing MeetingRoom type from mockData. -/
structure MeetingRoom where
  id : String
  name : String
  capacity : Int
  equipment : List String
  location : String
deriving DecidableEq

/-- mapBackendMeetingRoom: the id is stringified; a truthy (non-empty)
equipment string is split on the regex class of the three delimiters, each
piece trimmed and the falsy (empty) pieces filtered out, while a falsy
equipment string maps to the empty list. -/
def mapBackendMeetingRoom (room : BackendMeetingRoom) : MeetingRoom :=
  { id := toString room.id,
    name := room.name,
    capacity := room.capacity,
    equipment :=
      if room.equipment = "" then []
      else ((jsSplit (fun c => c == '、' || c == ',' || c == '，') room.equipment).map
        jsTrim).filter (fun s => s != ""),
    location := room.location }

/-- Stated from the claim's words for C7: the equipment string split on the
three delimiters with each piece trimmed, and nothing more. -/
def equipmentSplitTrimSpec (s : String) : List String :=
  (jsSplit (fun c => c == '、' || c == ',' || c == '，') s).map jsTrim

/-- Stated from the amended claim for C7: split on the three delimiters,
trim each piece, drop empty pieces, and map an empty equipment string to the
empty list. -/
def equipmentAmendedSpec (s : String) : List String :=
  if s = "" then []
  else ((jsSplit (fun c => c == '、' || c == ',' || c == '，') s).map jsTrim).filter
    (fun p => p != "")

/-- The backend Meeting DTO.  The status and attendees fields are optional
here because the mapper guards them (an unconstrained status enum and an
optional chaining on attendees). -/
structure BackendMeeting where
  id : Int
  title : String
  roomId : Int
  organizerId : String
  attendees : Option String
  date : String
  startTime : String
  endTime : String
  description : String
  status : Option String
  createdAt : String
deriving DecidableEq

/-- The UI-facing Meeting type from mockData (status holds one of the four
string literals of its TypeScript union type). -/
structure Meeting where
  id : String
  title : String
  roomId : String
  roomName : String
  organizer : String
  organizerId : String
  attendees : List String
  date : String
  startTime : String
  endTime : String
  description : String
  status : String
deriving DecidableEq

/-- JavaScript Map lookup over the pairs the Map was constructed from: the
last pair inserted for a key wins. -/
def jsMapGet {β : Type} (l : List (String × β)) (k : String) : Option β :=
  l.foldl (fun acc p => if p.1 = k then some p.2 else acc) none

/-- The room map built in apiGetTodayMeetings: new Map over the mapped rooms
keyed by their stringified id. -/
def buildRoomMap (rooms : List MeetingRoom) : List (String × MeetingRoom) :=
  rooms.map (fun r => (r.id, r))

/-- mapBackendMeeting: stringifies ids, resolves roomName through the
optional room map (empty string when absent or unmatched), normalizes the
unconstrained backend status to upcoming unless it is one of the three known
non-upcoming literals, and splits the optional attendees string on the four
delimiters with trimming and falsy filtering. -/
def mapBackendMeeting (meeting : BackendMeeting)
    (roomMap : Option (List (String × MeetingRoom))) : Meeting :=
  let roomId := toString meeting.roomId
  let room : Option MeetingRoom :=
    match roomMap with
    | none => none
    | some m => jsMapGet m roomId
  let status : String :=
    match meeting.status with
    | some s => if s = "ongoing" ∨ s = "completed" ∨ s = "cancelled" then s else "upcoming"
    | none => "upcoming"
  let attendees : List String :=
    match meeting.attendees with
    | some a => ((jsSplit (fun c => c == ';' || c == ',' || c == '，' || c == '、') a).map
        jsTrim).filter (fun s => s != "")
    | none => []
  { id := toString meeting.id,
    title := meeting.title,
    roomId := roomId,
    roomName := (room.map MeetingRoom.name).getD "",
    organizer := "",
    organizerId := meeting.organizerId,
    attendees := attendees,
    date := meeting.date,
    startTime := meeting.startTime,
    endTime := meeting.endTime,
    description := meeting.description,
    status := status }

/-- JavaScript a || b for strings: b when a is falsy (empty). -/
def jsOr (a b : String) : String :=
  if a = "" then b else a

/-- JavaScript a || b where a is an optional string field: b when a is
undefined or empty. -/
def jsOrOpt (a : Option String) (b : String) : String :=
  match a with
  | none => b
  | some s => if s = "" then b else s

/-- An entry of the approvers array of the UI-facing Workflow type. -/
structure Approver where
  userId : String
  name : String
  status : String
  comment : Option String
  approvedAt : Option String
deriving DecidableEq

/-- The UI-facing Workflow type from mockData (type and status hold the
string literals of their TypeScript union types). -/
structure Workflow where
  id : String
  title : String
  type : String
  applicant : String
  applicantId : String
  department : String
  status : String
  createdAt : String
  description : String
  amount : Option Int
  startDate : Option String
  endDate : Option String
  approvers : List Approver
deriving DecidableEq

/-- The backend TaskDTO. -/
structure BackendTaskDTO where
  id : String
  name : String
  description : Option String
  assignee : Option String
  owner : Option String
  processInstanceId : Option String
  processDefinitionId : Option String
  taskDefinitionKey : Option String
  createTime : Option String
  dueDate : Option String
  priority : Option Int
  category : Option String
  formKey : Option String
  parentTaskId : Option String
deriving DecidableEq

/-- The backend ProcessInstanceDTO. -/
structure BackendProcessInstanceDTO where
  id : String
  processDefinitionId : Option String
  processDefinitionKey : Option String
  processDefinitionName : Option String
  businessKey : Option String
  startDate : Option String
  startUserId : Option String
  startActivityId : Option String
  superProcessInstanceId : Option String
  suspended : Option Bool
  tenantId : Option String
  name : Option String
  localizedName : Option String
  description : Option String
  localizedDescription : Option String
deriving DecidableEq

/-- The backend paged task list. -/
structure BackendIPageTaskDTO where
  records : List BackendTaskDTO
  total : Int
  size : Int
  current : Int
deriving DecidableEq

/-- The backend paged process-instance list. -/
structure BackendIPageProcessInstanceDTO where
  records : List BackendProcessInstanceDTO
  total : Int
  size : Int
  current : Int
deriving DecidableEq

/-- The page of workflows the listing API functions resolve with. -/
structure WorkflowsPage where
  workflows : List Workflow
  total : Int
deriving DecidableEq

/-- mapTaskToWorkflow: the id prefers the process instance id, the title
falls back to the Chinese placeholder, and type, applicant, department,
status and approvers are hard-coded defaults. -/
def mapTaskToWorkflow (t : BackendTaskDTO) : Workflow :=
  { id := jsOrOpt t.processInstanceId t.id,
    title := jsOr t.name "流程",
    type := "leave",
    applicant := "",
    applicantId := jsOrOpt t.assignee "",
    department := "",
    status := "pending",
    createdAt := jsOrOpt t.createTime "",
    description := jsOrOpt t.description "",
    amount := none,
    startDate := none,
    endDate := none,
    approvers := [] }

/-- mapProcessInstanceToWorkflow: the title falls back through the process
definition name to the Chinese placeholder, and type, applicant, department,
status and approvers are hard-coded defaults; the optional currentUser
parameter is unused by the source. -/
def mapProcessInstanceToWorkflow (p : BackendProcessInstanceDTO)
    (currentUser : Option User) : Workflow :=
  { id := p.id,
    title := jsOrOpt p.name (jsOrOpt p.processDefinitionName "流程"),
    type := "leave",
    applicant := "",
    applicantId := jsOrOpt p.startUserId "",
    department := "",
    status := "pending",
    createdAt := jsOrOpt p.startDate "",
    description := jsOrOpt p.description "",
    amount := none,
    startDate := none,
    endDate := none,
    approvers := [] }

/-- apiGetWorkflows: unwrap the paged process-instance envelope and map each
record through mapProcessInstanceToWorkflow. -/
def apiGetWorkflows (res : FetchResponse (ResultWrapper BackendIPageProcessInstanceDTO))
    (st : BrowserState) : Except JsError WorkflowsPage × BrowserState :=
  match requestResult BackendIPageProcessInstanceDTO res st with
  | (Except.error e, st1) => (Except.error e, st1)
  | (Except.ok page, st1) =>
    (Except.ok { workflows := page.records.map (fun p => mapProcessInstanceToWorkflow p none),
                 total := page.total }, st1)

/-- apiGetMyWorkflows: same mapping as apiGetWorkflows over the my-workflows
endpoint. -/
def apiGetMyWorkflows (res : FetchResponse (ResultWrapper BackendIPageProcessInstanceDTO))
    (st : BrowserState) : Except JsError WorkflowsPage × BrowserState :=
  match requestResult BackendIPageProcessInstanceDTO res st with
  | (Except.error e, st1) => (Except.error e, st1)
  | (Except.ok page, st1) =>
    (Except.ok { workflows := page.records.map (fun p => mapProcessInstanceToWorkflow p none),
                 total := page.total }, st1)

/-- apiGetPendingWorkflows: unwrap the paged task envelope and map each
record through mapTaskToWorkflow. -/
def apiGetPendingWorkflows (res : FetchResponse (ResultWrapper BackendIPageTaskDTO))
    (st : BrowserState) : Except JsError WorkflowsPage × BrowserState :=
  match requestResult BackendIPageTaskDTO res st with
  | (Except.error e, st1) => (Except.error e, st1)
  | (Except.ok page, st1) =>
    (Except.ok { workflows := page.records.map (fun t => mapTaskToWorkflow t),
                 total := page.total }, st1)

/-- apiCreateWorkflow: unwrap the created process-instance envelope and map
it through mapProcessInstanceToWorkflow. -/
def apiCreateWorkflow (res : FetchResponse (ResultWrapper BackendProcessInstanceDTO))
    (st : BrowserState) : Except JsError Workflow × BrowserState :=
  match requestResult BackendProcessInstanceDTO res st with
  | (Except.error e, st1) => (Except.error e, st1)
  | (Except.ok created, st1) => (Except.ok (mapProcessInstanceToWorkflow created none), st1)

/-- The fields C9 says every produced Workflow carries regardless of the
backend DTO. -/
def defaultedWorkflowFields (w : Workflow) : Prop :=
  w.status = "pending" ∧ w.type = "leave" ∧ w.applicant = "" ∧
    w.department = "" ∧ w.approvers = []

/-- The backend User DTO of the second API client version. -/
structure BackendUser where
  id : String
  firstName : Option String
  lastName : Option String
  displayName : Option String
  email : String
  tenantId : Option String
  password : Option String
  pictureSet : Option Bool
deriving DecidableEq

/-- mapBackendUser of the second API client version: a null or undefined
backend user maps to the fixed placeholder user; otherwise the name falls
back from displayName through the concatenated first and last names to the
local part of the email or the Chinese placeholder, and the avatar is the
uppercased first two characters of the name. -/
def mapBackendUser (user : Option BackendUser) : User :=
  match user with
  | none =>
    { id := "",
      name := "未知用户",
      email := "",
      avatar := "??",
      department := "",
      role := "employee",
      phone := "",
      status := "active",
      createdAt := "" }
  | some u =>
    let name :=
      jsOrOpt u.displayName
        (jsOr ((u.firstName.getD "") ++ (u.lastName.getD ""))
          (if u.email = "" then "未知用户"
           else (jsSplit (fun c => c == '@') u.email).headD ""))
    let avatar := String.mk ((name.data.take 2).map Char.toUpper)
    { id := jsOr u.id "",
      name := name,
      email := jsOr u.email "",
      avatar := avatar,
      department := "",
      role := "employee",
      phone := "",
      status := "active",
      createdAt := "" }

/-- apiGetCurrentUser of the second API client version: unwrap the envelope
of /api/me and map its data field, which may be null, through
mapBackendUser. -/
def apiGetCurrentUser (res : FetchResponse (ResultWrapper (Option BackendUser)))
    (st : BrowserState) : Except JsError User × BrowserState :=
  match requestResult (Option BackendUser) res st with
  | (Except.error e, st1) => (Except.error e, st1)
  | (Except.ok backendUser, st1) => (Except.ok (mapBackendUser backendUser), st1)

/-- C1: for a 401 or 403 response, requestJson removes the token and userId
local storage keys, leaves the browser at the /login route, and rejects with
the Error whose message carries the HTTP status, whatever the caller. -/
theorem requestJson_auth_failure (T : Type) (res : FetchResponse T) (st : BrowserState)
    (h : res.status = 401 ∨ res.status = 403) :
    (requestJson T res st).2.token = none ∧
    (requestJson T res st).2.userId = none ∧
    (requestJson T res st).2.pathname = "/login" ∧
    (requestJson T res st).1 =
      Except.error ⟨httpErrorMessage res.status res.statusText res.bodyText⟩ ∧
    ∃ rest : String,
      httpErrorMessage res.status res.statusText res.bodyText =
        "请求失败: " ++ toString res.status ++ rest := by
  have hok : res.ok = false := by
    rcases h with h | h <;> simp [FetchResponse.ok, h]
  have hbr : (res.status = 401 ∨ res.status = 403) = True := by simp [h]
  refine ⟨?_, ?_, ?_, ?_, ?_⟩
  · simp [requestJson, hok, hbr, clearSessionAndRedirect]
    split <;> rfl
  · simp [requestJson, hok, hbr, clearSessionAndRedirect]
    split <;> rfl
  · simp [requestJson, hok, hbr, clearSessionAndRedirect]
    split
    · next hp => simpa using hp
    · rfl
  · simp [requestJson, hok]
  · exact ⟨" " ++ res.statusText ++
      (if res.bodyText = "" then "" else " - " ++ res.bodyText.take 200),
      by simp [httpErrorMessage, String.append_assoc]⟩

/-- Witness for C1 at a concrete 401 response issued from the dashboard
route with a live session. -/
theorem requestJson_auth_failure_witness :
    (requestJson Nat ⟨401, "Unauthorized", "", 0⟩
        ⟨some "tok", some "u1", "/dashboard"⟩).2.token = none ∧
    (requestJson Nat ⟨401, "Unauthorized", "", 0⟩
        ⟨some "tok", some "u1", "/dashboard"⟩).2.userId = none ∧
    (requestJson Nat ⟨401, "Unauthorized", "", 0⟩
        ⟨some "tok", some "u1", "/dashboard"⟩).2.pathname = "/login" ∧
    (requestJson Nat ⟨401, "Unauthorized", "", 0⟩
        ⟨some "tok", some "u1", "/dashboard"⟩).1 =
      Except.error ⟨httpErrorMessage 401 "Unauthorized" ""⟩ ∧
    ∃ rest : String,
      httpErrorMessage 401 "Unauthorized" "" = "请求失败: " ++ toString 401 ++ rest :=
  requestJson_auth_failure Nat ⟨401, "Unauthorized", "", 0⟩
    ⟨some "tok", some "u1", "/dashboard"⟩ (Or.inl rfl)

/-- C2: for an ok response whose envelope code is 0 or 1, requestResult
resolves with exactly the data field of the envelope and leaves the browser
state untouched. -/
theorem requestResult_success (T : Type) (res : FetchResponse (ResultWrapper T))
    (st : BrowserState) (hok : res.ok = true)
    (hcode : res.json.code = 0 ∨ res.json.code = 1) :
    requestResult T res st = (Except.ok res.json.data, st) := by
  have h0 : ¬(res.json.code ≠ 0 ∧ res.json.code ≠ 1) := by
    rcases hcode with h | h <;> simp [h]
  simp [requestResult, requestJson, hok, h0]

/-- Witness for C2: a code 0 envelope and a code 1 envelope both resolve
with their data field unchanged. -/
theorem requestResult_success_witness :
    requestResult (List Nat) ⟨200, "OK", "", ⟨0, "ok", [1, 2, 3]⟩⟩
        ⟨some "tok", some "u1", "/home"⟩ =
      (Except.ok [1, 2, 3], ⟨some "tok", some "u1", "/home"⟩) ∧
    requestResult (List Nat) ⟨200, "OK", "", ⟨1, "ok", [4, 5]⟩⟩
        ⟨some "tok", some "u1", "/home"⟩ =
      (Except.ok [4, 5], ⟨some "tok", some "u1", "/home"⟩) :=
  ⟨requestResult_success (List Nat) ⟨200, "OK", "", ⟨0, "ok", [1, 2, 3]⟩⟩
      ⟨some "tok", some "u1", "/home"⟩ rfl (Or.inl rfl),
   requestResult_success (List Nat) ⟨200, "OK", "", ⟨1, "ok", [4, 5]⟩⟩
      ⟨some "tok", some "u1", "/home"⟩ rfl (Or.inr rfl)⟩

/-- C3 counterexample: an ok response whose envelope has code 2 and an empty
msg rejects with the fallback message 接口返回错误, which is not the
server-provided msg field (the empty string), so the claim as stated fails. -/
theorem requestResult_empty_msg_counterexample :
    (requestResult Nat ⟨200, "OK", "", ⟨2, "", 0⟩⟩ ⟨none, none, "/home"⟩).1 =
      Except.error ⟨"接口返回错误"⟩ ∧
    "接口返回错误" ≠ (⟨2, "", (0 : Nat)⟩ : ResultWrapper Nat).msg := by
  refine ⟨by simp [requestResult, requestJson, FetchResponse.ok], by decide⟩

/-- C3 amended: for an ok response whose envelope code is neither 0 nor 1,
requestResult rejects; the rejection message is the envelope msg when msg is
non-empty, and the fallback 接口返回错误 when msg is empty. -/
theorem requestResult_failure (T : Type) (res : FetchResponse (ResultWrapper T))
    (st : BrowserState) (hok : res.ok = true)
    (hcode : res.json.code ≠ 0 ∧ res.json.code ≠ 1) :
    requestResult T res st =
      (Except.error ⟨if res.json.msg = "" then "接口返回错误" else res.json.msg⟩, st) := by
  simp [requestResult, requestJson, hok, hcode]

/-- Witness for C3 amended: a code 2 envelope with a non-empty msg rejects
with exactly that msg. -/
theorem requestResult_failure_witness :
    requestResult Nat ⟨200, "OK", "", ⟨2, "boom", 7⟩⟩ ⟨none, none, "/home"⟩ =
      (Except.error ⟨if "boom" = "" then "接口返回错误" else "boom"⟩,
        ⟨none, none, "/home"⟩) :=
  requestResult_failure Nat ⟨200, "OK", "", ⟨2, "boom", 7⟩⟩ ⟨none, none, "/home"⟩
    rfl (by decide)

/-- C4: for every server response, successful or failed, apiLogout ends with
the token and userId keys removed, the store logout also ends with them
removed and the React token state null (it returns normally, so the server
failure is swallowed), and a second logout over the result again leaves the
keys removed, so the cleanup is idempotent. -/
theorem logout_clears_session (res : FetchResponse (ResultWrapper String))
    (b : BrowserState) (s : StoreState) :
    (apiLogout res b).2.token = none ∧
    (apiLogout res b).2.userId = none ∧
    (logout res s).browser.token = none ∧
    (logout res s).browser.userId = none ∧
    (logout res s).reactToken = none ∧
    (logout res (logout res s)).browser.token = none ∧
    (logout res (logout res s)).browser.userId = none := by
  refine ⟨?_, ?_, rfl, rfl, rfl, rfl, rfl⟩ <;>
    · unfold apiLogout
      rcases requestResult String res b with ⟨r, st1⟩
      cases r <;> rfl

/-- C5: for every logged-in user and every permission string, hasPermission
returns true: an admin role is allowed everything and every other role gets
the blanket allow, so authorization is not enforced client-side. -/
theorem hasPermission_blanket_allow (u : User) (permission : String) :
    hasPermission (some u) permission = true := by
  show (if u.role = "admin" then true else true) = true
  split <;> rfl

/-- Folding the Map-lookup step over pairs none of which carry the key
leaves the accumulator unchanged. -/
theorem jsMapGet_skip {β : Type} (k : String) (l : List (String × β)) (acc : Option β)
    (h : ∀ p ∈ l, p.1 ≠ k) :
    l.foldl (fun acc p => if p.1 = k then some p.2 else acc) acc = acc := by
  induction l generalizing acc with
  | nil => rfl
  | cons p t ih =>
    simp only [List.foldl_cons]
    rw [if_neg (h p (List.mem_cons_self p t))]
    exact ih acc (fun q hq => h q (List.mem_cons_of_mem p hq))

/-- On a pair list with pairwise distinct keys, the Map lookup of a present
key returns its value, whatever the accumulator started as. -/
theorem jsMapGet_mem_aux {β : Type} (k : String) (v : β) (l : List (String × β)) :
    ∀ acc : Option β, (l.map Prod.fst).Nodup → (k, v) ∈ l →
      l.foldl (fun acc p => if p.1 = k then some p.2 else acc) acc = some v := by
  induction l with
  | nil => intro acc _ hmem; cases hmem
  | cons p t ih =>
    intro acc hnd hmem
    simp only [List.map_cons, List.nodup_cons] at hnd
    rcases List.mem_cons.mp hmem with heq | hmemt
    · subst heq
      have hk : k ∉ List.map Prod.fst t := by simpa using hnd.1
      simp only [List.foldl_cons, if_pos rfl]
      refine jsMapGet_skip k t (some v) (fun q hq hqk => hk ?_)
      rw [← hqk]
      exact List.mem_map_of_mem Prod.fst hq
    · simp only [List.foldl_cons]
      exact ih _ hnd.2 hmemt

/-- On a pair list with pairwise distinct keys, the Map lookup of a present
key returns its value. -/
theorem jsMapGet_mem {β : Type} (k : String) (v : β) (l : List (String × β))
    (hnd : (l.map Prod.fst).Nodup) (hmem : (k, v) ∈ l) :
    jsMapGet l k = some v :=
  jsMapGet_mem_aux k v l none hnd hmem

/-- The Map lookup of an absent key returns none. -/
theorem jsMapGet_absent {β : Type} (k : String) (l : List (String × β))
    (h : ∀ p ∈ l, p.1 ≠ k) :
    jsMapGet l k = none :=
  jsMapGet_skip k l none h

/-- C6: with the room map apiGetTodayMeetings builds from a room list with
pairwise distinct ids, the mapped meeting's roomName is the name of the room
whose id equals the stringified roomId of the meeting, and when no room in
the list matches, roomName is the empty string. -/
theorem mapBackendMeeting_roomName (m : BackendMeeting) (rooms : List MeetingRoom) :
    ((rooms.map MeetingRoom.id).Nodup →
      ∀ r ∈ rooms, r.id = toString m.roomId →
        (mapBackendMeeting m (some (buildRoomMap rooms))).roomName = r.name) ∧
    ((∀ r ∈ rooms, r.id ≠ toString m.roomId) →
      (mapBackendMeeting m (some (buildRoomMap rooms))).roomName = "") := by
  constructor
  · intro hnd r hr hid
    have hmem : (toString m.roomId, r) ∈ buildRoomMap rooms := by
      unfold buildRoomMap
      rw [← hid]
      exact List.mem_map_of_mem (fun r : MeetingRoom => (r.id, r)) hr
    have hnd2 : ((buildRoomMap rooms).map Prod.fst).Nodup := by
      unfold buildRoomMap
      simpa [List.map_map, Function.comp] using hnd
    have hget := jsMapGet_mem (toString m.roomId) r (buildRoomMap rooms) hnd2 hmem
    simp [mapBackendMeeting, hget]
  · intro habs
    have hget : jsMapGet (buildRoomMap rooms) (toString m.roomId) = none := by
      refine jsMapGet_absent _ _ (fun p hp => ?_)
      rcases List.mem_map.mp hp with ⟨r, hr, hpr⟩
      rw [← hpr]
      exact habs r hr
    simp [mapBackendMeeting, hget]

/-- Witness for C6 at the spec's example: a meeting with roomId 3 against a
room list whose only room has id 3 and name Training Room, and against an
empty room list. -/
theorem mapBackendMeeting_roomName_witness :
    (mapBackendMeeting
        ⟨7, "Standup", 3, "u1", some "a,b", "2026-01-01", "09:00", "10:00", "", some "ongoing", ""⟩
        (some (buildRoomMap [⟨"3", "Training Room", 20, ["Projector"], "2F"⟩]))).roomName =
      "Training Room" ∧
    (mapBackendMeeting
        ⟨7, "Standup", 3, "u1", some "a,b", "2026-01-01", "09:00", "10:00", "", some "ongoing", ""⟩
        (some (buildRoomMap []))).roomName = "" :=
  ⟨(mapBackendMeeting_roomName
      ⟨7, "Standup", 3, "u1", some "a,b", "2026-01-01", "09:00", "10:00", "", some "ongoing", ""⟩
      [⟨"3", "Training Room", 20, ["Projector"], "2F"⟩]).1
      (by decide) ⟨"3", "Training Room", 20, ["Projector"], "2F"⟩ (by simp) (by decide),
   (mapBackendMeeting_roomName
      ⟨7, "Standup", 3, "u1", some "a,b", "2026-01-01", "09:00", "10:00", "", some "ongoing", ""⟩
      []).2 (by simp)⟩

/-- C7 counterexample: for the equipment string with a trailing delimiter,
the code drops the resulting empty piece while the claim's split-and-trim
description keeps it, so the claim as stated fails on this room. -/
theorem mapBackendMeetingRoom_equipment_counterexample :
    (mapBackendMeetingRoom ⟨1, "A", 10, "Projector、", "1F", none⟩).equipment =
      ["Projector"] ∧
    equipmentSplitTrimSpec "Projector、" = ["Projector", ""] ∧
    (["Projector"] : List String) ≠ ["Projector", ""] :=
  ⟨by decide, by decide, by decide⟩

/-- C7 amended: the mapped equipment field is the equipment string split on
the three delimiters with each piece trimmed and empty pieces dropped, an
empty equipment string mapping to the empty list; in particular the spec's
example splits as stated. -/
theorem mapBackendMeetingRoom_equipment (room : BackendMeetingRoom) :
    (mapBackendMeetingRoom room).equipment = equipmentAmendedSpec room.equipment ∧
    equipmentAmendedSpec "Projector、Whiteboard" = ["Projector", "Whiteboard"] ∧
    equipmentAmendedSpec "" = [] :=
  ⟨rfl, by decide, by decide⟩

/-- C8: the mapped meeting status is always one of the four UI literals; it
equals the backend status when that is ongoing, completed or cancelled, and
is upcoming when the backend status is omitted or any other value. -/
theorem mapBackendMeeting_status (m : BackendMeeting)
    (rm : Option (List (String × MeetingRoom))) :
    ((mapBackendMeeting m rm).status = "upcoming" ∨
      (mapBackendMeeting m rm).status = "ongoing" ∨
      (mapBackendMeeting m rm).status = "completed" ∨
      (mapBackendMeeting m rm).status = "cancelled") ∧
    ((m.status = some "ongoing" ∨ m.status = some "completed" ∨ m.status = some "cancelled") →
      some (mapBackendMeeting m rm).status = m.status) ∧
    ((∀ s, m.status = some s → s ≠ "ongoing" ∧ s ≠ "completed" ∧ s ≠ "cancelled") →
      (mapBackendMeeting m rm).status = "upcoming") := by
  refine ⟨?_, ?_, ?_⟩
  · cases h : m.status with
    | none => simp [mapBackendMeeting, h]
    | some s =>
      by_cases hs : s = "ongoing" ∨ s = "completed" ∨ s = "cancelled"
      · rcases hs with hs | hs | hs <;> simp [mapBackendMeeting, h, hs]
      · simp [mapBackendMeeting, h, hs]
  · intro hin
    rcases hin with h | h | h <;> simp [mapBackendMeeting, h]
  · intro hout
    cases h : m.status with
    | none => simp [mapBackendMeeting, h]
    | some s =>
      have hs := hout s h
      have : ¬(s = "ongoing" ∨ s = "completed" ∨ s = "cancelled") := by
        simpa using hs
      simp [mapBackendMeeting, h, this]

/-- Witness for C8 at a backend meeting with status ongoing and one with an
unknown status string. -/
theorem mapBackendMeeting_status_witness :
    some (mapBackendMeeting
        ⟨1, "A", 2, "u", none, "d", "s", "e", "", some "ongoing", ""⟩ none).status =
      some "ongoing" ∧
    (mapBackendMeeting
        ⟨1, "A", 2, "u", none, "d", "s", "e", "", some "finished", ""⟩ none).status =
      "upcoming" ∧
    (mapBackendMeeting
        ⟨1, "A", 2, "u", none, "d", "s", "e", "", none, ""⟩ none).status = "upcoming" :=
  ⟨(mapBackendMeeting_status
      ⟨1, "A", 2, "u", none, "d", "s", "e", "", some "ongoing", ""⟩ none).2.1 (Or.inl rfl),
   (mapBackendMeeting_status
      ⟨1, "A", 2, "u", none, "d", "s", "e", "", some "finished", ""⟩ none).2.2
      (fun s hs => by
        cases hs
        exact ⟨by decide, by decide, by decide⟩),
   (mapBackendMeeting_status
      ⟨1, "A", 2, "u", none, "d", "s", "e", "", none, ""⟩ none).2.2
      (fun s hs => by cases hs)⟩

/-- Both workflow mappers hard-code the defaulted fields. -/
theorem mapProcessInstanceToWorkflow_defaulted (p : BackendProcessInstanceDTO)
    (cu : Option User) : defaultedWorkflowFields (mapProcessInstanceToWorkflow p cu) :=
  ⟨rfl, rfl, rfl, rfl, rfl⟩

/-- The task mapper hard-codes the defaulted fields. -/
theorem mapTaskToWorkflow_defaulted (t : BackendTaskDTO) :
    defaultedWorkflowFields (mapTaskToWorkflow t) :=
  ⟨rfl, rfl, rfl, rfl, rfl⟩

/-- C9: every Workflow resolved by apiGetWorkflows, apiGetMyWorkflows,
apiGetPendingWorkflows or apiCreateWorkflow has status pending, type leave,
empty applicant and department, and an empty approvers list, whatever the
backend DTOs contained. -/
theorem apiWorkflows_defaulted
    (resA resB : FetchResponse (ResultWrapper BackendIPageProcessInstanceDTO))
    (resC : FetchResponse (ResultWrapper BackendIPageTaskDTO))
    (resD : FetchResponse (ResultWrapper BackendProcessInstanceDTO))
    (stA stB stC stD : BrowserState) :
    (∀ wp, (apiGetWorkflows resA stA).1 = Except.ok wp →
      ∀ w ∈ wp.workflows, defaultedWorkflowFields w) ∧
    (∀ wp, (apiGetMyWorkflows resB stB).1 = Except.ok wp →
      ∀ w ∈ wp.workflows, defaultedWorkflowFields w) ∧
    (∀ wp, (apiGetPendingWorkflows resC stC).1 = Except.ok wp →
      ∀ w ∈ wp.workflows, defaultedWorkflowFields w) ∧
    (∀ w, (apiCreateWorkflow resD stD).1 = Except.ok w →
      defaultedWorkflowFields w) := by
  refine ⟨?_, ?_, ?_, ?_⟩
  · intro wp h w hw
    unfold apiGetWorkflows at h
    rcases hr : requestResult BackendIPageProcessInstanceDTO resA stA with ⟨r, stx⟩
    rw [hr] at h
    cases r with
    | error e => simp at h
    | ok page =>
      simp only [Except.ok.injEq] at h
      rw [← h] at hw
      rcases List.mem_map.mp hw with ⟨p, _, hpw⟩
      exact hpw ▸ mapProcessInstanceToWorkflow_defaulted p none
  · intro wp h w hw
    unfold apiGetMyWorkflows at h
    rcases hr : requestResult BackendIPageProcessInstanceDTO resB stB with ⟨r, stx⟩
    rw [hr] at h
    cases r with
    | error e => simp at h
    | ok page =>
      simp only [Except.ok.injEq] at h
      rw [← h] at hw
      rcases List.mem_map.mp hw with ⟨p, _, hpw⟩
      exact hpw ▸ mapProcessInstanceToWorkflow_defaulted p none
  · intro wp h w hw
    unfold apiGetPendingWorkflows at h
    rcases hr : requestResult BackendIPageTaskDTO resC stC with ⟨r, stx⟩
    rw [hr] at h
    cases r with
    | error e => simp at h
    | ok page =>
      simp only [Except.ok.injEq] at h
      rw [← h] at hw
      rcases List.mem_map.mp hw with ⟨t, _, htw⟩
      exact htw ▸ mapTaskToWorkflow_defaulted t
  · intro w h
    unfold apiCreateWorkflow at h
    rcases hr : requestResult BackendProcessInstanceDTO resD stD with ⟨r, stx⟩
    rw [hr] at h
    cases r with
    | error e => simp at h
    | ok created =>
      simp only [Except.ok.injEq] at h
      exact h ▸ mapProcessInstanceToWorkflow_defaulted created none

/-- C10: mapBackendUser is total on a null backend user, returning the
placeholder user with empty id and email, the Chinese unknown-user name, the
?? avatar, role employee and status active, and apiGetCurrentUser therefore
resolves with that placeholder whenever a success envelope carries a null
data field. -/
theorem mapBackendUser_null_total (res : FetchResponse (ResultWrapper (Option BackendUser)))
    (st : BrowserState) (hok : res.ok = true)
    (hcode : res.json.code = 0 ∨ res.json.code = 1)
    (hdata : res.json.data = none) :
    (mapBackendUser none).id = "" ∧
    (mapBackendUser none).email = "" ∧
    (mapBackendUser none).name = "未知用户" ∧
    (mapBackendUser none).avatar = "??" ∧
    (mapBackendUser none).role = "employee" ∧
    (mapBackendUser none).status = "active" ∧
    (apiGetCurrentUser res st).1 = Except.ok (mapBackendUser none) := by
  have h0 : ¬(res.json.code ≠ 0 ∧ res.json.code ≠ 1) := by
    rcases hcode with h | h <;> simp [h]
  refine ⟨rfl, rfl, rfl, rfl, rfl, rfl, ?_⟩
  simp [apiGetCurrentUser, requestResult, requestJson, hok, h0, hdata]

/-- Witness for C10 at a concrete code 0 envelope whose data field is
null. -/
theorem mapBackendUser_null_total_witness :
    (mapBackendUser none).id = "" ∧
    (mapBackendUser none).email = "" ∧
    (mapBackendUser none).name = "未知用户" ∧
    (mapBackendUser none).avatar = "??" ∧
    (mapBackendUser none).role = "employee" ∧
    (mapBackendUser none).status = "active" ∧
    (apiGetCurrentUser ⟨200, "OK", "", ⟨0, "ok", none⟩⟩
        ⟨some "tok", some "u1", "/home"⟩).1 = Except.ok (mapBackendUser none) :=
  mapBackendUser_null_total ⟨200, "OK", "", ⟨0, "ok", none⟩⟩
    ⟨some "tok", some "u1", "/home"⟩ rfl (Or.inl rfl) rfl

/-- Witness for C9: concrete one-record pages and a concrete created
instance, resolved through all four API functions. -/
theorem apiWorkflows_defaulted_witness :
    defaultedWorkflowFields (mapProcessInstanceToWorkflow
      ⟨"pi1", none, none, none, none, none, none, none, none, none, none, none, none,
        none, none⟩ none) ∧
    defaultedWorkflowFields (mapTaskToWorkflow
      ⟨"t1", "Task", none, none, none, none, none, none, none, none, none, none, none,
        none⟩) :=
  ⟨(apiWorkflows_defaulted
      ⟨200, "OK", "",
        ⟨0, "ok", ⟨[⟨"pi1", none, none, none, none, none, none, none, none, none, none,
          none, none, none, none⟩], 1, 50, 1⟩⟩⟩
      ⟨200, "OK", "",
        ⟨0, "ok", ⟨[⟨"pi1", none, none, none, none, none, none, none, none, none, none,
          none, none, none, none⟩], 1, 50, 1⟩⟩⟩
      ⟨200, "OK", "",
        ⟨0, "ok", ⟨[⟨"t1", "Task", none, none, none, none, none, none, none, none, none,
          none, none, none⟩], 1, 50, 1⟩⟩⟩
      ⟨200, "OK", "",
        ⟨1, "ok", ⟨"pi1", none, none, none, none, none, none, none, none, none, none,
          none, none, none, none⟩⟩⟩
      ⟨none, none, "/home"⟩ ⟨none, none, "/home"⟩ ⟨none, none, "/home"⟩
      ⟨none, none, "/home"⟩).1
      { workflows := [mapProcessInstanceToWorkflow
          ⟨"pi1", none, none, none, none, none, none, none, none, none, none, none, none,
            none, none⟩ none], total := 1 }
      rfl
      (mapProcessInstanceToWorkflow
        ⟨"pi1", none, none, none, none, none, none, none, none, none, none, none, none,
          none, none⟩ none)
      (by simp),
   (apiWorkflows_defaulted
      ⟨200, "OK", "",
        ⟨0, "ok", ⟨[⟨"pi1", none, none, none, none, none, none, none, none, none, none,
          none, none, none, none⟩], 1, 50, 1⟩⟩⟩
      ⟨200, "OK", "",
        ⟨0, "ok", ⟨[⟨"pi1", none, none, none, none, none, none, none, none, none, none,
          none, none, none, none⟩], 1, 50, 1⟩⟩⟩
      ⟨200, "OK", "",
        ⟨0, "ok", ⟨[⟨"t1", "Task", none, none, none, none, none, none, none, none, none,
          none, none, none⟩], 1, 50, 1⟩⟩⟩
      ⟨200, "OK", "",
        ⟨1, "ok", ⟨"pi1", none, none, none, none, none, none, none, none, none, none,
          none, none, none, none⟩⟩⟩
      ⟨none, none, "/home"⟩ ⟨none, none, "/home"⟩ ⟨none, none, "/home"⟩
      ⟨none, none, "/home"⟩).2.2.1
      { workflows := [mapTaskToWorkflow
          ⟨"t1", "Task", none, none, none, none, none, none, none, none, none, none, none,
            none⟩], total := 1 }
      rfl
      (mapTaskToWorkflow
        ⟨"t1", "Task", none, none, none, none, none, none, none, none, none, none, none,
          none⟩)
      (by simp)⟩
